import Mathlib

/-!
Shallow embedding of the EduPace role/permission utilities and the
grade-ingestion pipeline (`edupace_app/utils.py`, `edupace_app/models.py`,
`edupace_app/views.py`), together with theorems checking the specification
claims against it.

Python strings are modelled as Lean `String`; the Python string methods the
code uses (`strip`, `lower`, `upper`, substring `in`) are implemented below
over `List Char` so that everything evaluates in the kernel.
-/

namespace EduPace

/-- ASCII lower-casing of one character, as Python `str.lower` acts on the
ASCII identifiers and headers this code handles. -/
def lowCh (c : Char) : Char :=
  if 65 ≤ c.toNat && c.toNat ≤ 90 then Char.ofNat (c.toNat + 32) else c

/-- ASCII upper-casing of one character, as Python `str.upper` acts on the
ASCII grade letters this code handles. -/
def upCh (c : Char) : Char :=
  if 97 ≤ c.toNat && c.toNat ≤ 122 then Char.ofNat (c.toNat - 32) else c

/-- Whitespace test used by Python `str.strip`. -/
def isWs (c : Char) : Bool := c == ' ' || c == '\t' || c == '\n' || c == '\r'

/-- Python `str.strip`: drop whitespace from both ends. -/
def trimList (l : List Char) : List Char :=
  ((l.dropWhile isWs).reverse.dropWhile isWs).reverse

/-- Does `l` start with `pat`? (helper for substring containment). -/
def startsWithList (pat l : List Char) : Bool :=
  match pat, l with
  | [], _ => true
  | _ :: _, [] => false
  | a :: as, b :: bs => a == b && startsWithList as bs

/-- Python `pat in l`: substring containment. -/
def containsList (l pat : List Char) : Bool :=
  match l with
  | [] => pat.isEmpty
  | _ :: rest => startsWithList pat l || containsList rest pat

/-- Python `pat in s` on strings. -/
def strContains (s pat : String) : Bool := containsList s.toList pat.toList

/-- Python `s.strip()`. -/
def pyStrip (s : String) : String := ⟨trimList s.toList⟩

/-- Python `s.lower()`. -/
def pyLower (s : String) : String := ⟨(s.toList).map lowCh⟩

/-- Python `s.upper()`. -/
def pyUpper (s : String) : String := ⟨(s.toList).map upCh⟩

/-- `df.columns.str.strip().str.lower()` applied to one header name. -/
def normalizeHeader (s : String) : String := pyLower (pyStrip s)

/-! ## Roles and permissions (`utils.py`) -/

/-- The three role strings `get_user_role` can return besides `None`. -/
inductive Role where
  | teacher
  | student
  | academic_board
deriving DecidableEq

/-- The slice of a Django `Teacher` profile the permission code reads:
`teacher.courses.all()`, identified by course codes (course codes are
unique in the data model). -/
structure TeacherProfile where
  courses : List String
deriving DecidableEq

/-- The slice of a Django request user the role/permission code reads.
`hasattr(user, p)` for the three reverse one-to-one profile accessors is
modelled by the corresponding `Option` being `some`. -/
structure PyUser where
  is_authenticated : Bool
  teacher_profile : Option TeacherProfile
  student_profile : Option Unit
  academic_board_profile : Option Unit
deriving DecidableEq

/-- The slice of a `Course` the permission code reads. -/
structure Course where
  code : String
  is_locked : Bool
deriving DecidableEq

/-- `get_user_role` (utils.py lines 8-19). -/
def get_user_role (user : PyUser) : Option Role :=
  if !user.is_authenticated then none
  else if user.teacher_profile.isSome then some Role.teacher
  else if user.student_profile.isSome then some Role.student
  else if user.academic_board_profile.isSome then some Role.academic_board
  else none

/-- `check_course_edit_permission` (utils.py lines 53-57). -/
def check_course_edit_permission (user : PyUser) (course : Course) : Bool :=
  if get_user_role user ≠ some Role.academic_board then false
  else !course.is_locked

/-- `check_learning_outcome_permission` (utils.py lines 60-72).  The
`except Teacher.DoesNotExist` arm is the `none` case of the profile; it is
unreachable once the role is `teacher` but is kept to mirror the source. -/
def check_learning_outcome_permission (user : PyUser) (course : Course) : Bool :=
  if get_user_role user ≠ some Role.teacher then false
  else
    match user.teacher_profile with
    | none => false
    | some teacher =>
      if !(teacher.courses.contains course.code) then false
      else !course.is_locked

/-- `check_grade_permission` (utils.py lines 75-77): delegates. -/
def check_grade_permission (user : PyUser) (course : Course) : Bool :=
  check_learning_outcome_permission user course

/-! ## Grade ingestion (`process_excel_grades`, utils.py lines 148-233) -/

/-- A spreadsheet cell as pandas presents it: missing (NaN), a string, or a
number.  Numbers are modelled as rationals. -/
inductive Cell where
  | empty
  | str (s : String)
  | num (q : Rat)
deriving DecidableEq

/-- Python `str(cell)`.  `str` of a pandas NaN is the string "nan". -/
def pyStr : Cell → String
  | Cell.empty => "nan"
  | Cell.str s => s
  | Cell.num q => toString q

/-- `pd.notna(cell)`. -/
def notna : Cell → Bool
  | Cell.empty => false
  | _ => true

/-- Value of one ASCII digit. -/
def digitVal (c : Char) : Option Nat :=
  if 48 ≤ c.toNat && c.toNat ≤ 57 then some (c.toNat - 48) else none

/-- Value of a non-empty all-digit string. -/
def digitsVal (l : List Char) : Option Nat :=
  match l with
  | [] => none
  | _ =>
    l.foldl
      (fun acc c =>
        match acc, digitVal c with
        | some a, some d => some (a * 10 + d)
        | _, _ => none)
      (some 0)

/-- Unsigned plain decimal numeral, with an optional fractional part
(`"85"`, `"85.5"`, `"85."`, `".5"`). -/
def parseUnsigned (l : List Char) : Option Rat :=
  let before := l.takeWhile (fun c => c != '.')
  let after := l.dropWhile (fun c => c != '.')
  match after with
  | [] => (digitsVal before).map (fun n => (n : Rat))
  | _ :: frac =>
    if frac.contains '.' then none
    else if before.isEmpty && frac.isEmpty then none
    else
      match (if before.isEmpty then some 0 else digitsVal before) with
      | none => none
      | some n =>
        if frac.isEmpty then some (n : Rat)
        else
          match digitsVal frac with
          | none => none
          | some f => some ((n : Rat) + (f : Rat) / ((10 : Rat) ^ frac.length))

/-- Python `float(cell)`, restricted to the plain decimal numerals that grade
percentages take (exponent/infinity forms are outside the modelled domain).
`none` models `float` raising `ValueError`.  The `empty` case is unreachable
behind the `pd.notna` guard in the source. -/
def pyFloat : Cell → Option Rat
  | Cell.num q => some q
  | Cell.str s => parseUnsigned (trimList s.toList)
  | Cell.empty => none

/-- `Grade.GRADE_CHOICES` (models.py lines 116-128). -/
def GRADE_CHOICES : List (String × String) :=
  [("A+", "A+"), ("A", "A"), ("A-", "A-"), ("B+", "B+"), ("B", "B"),
   ("B-", "B-"), ("C+", "C+"), ("C", "C"), ("C-", "C-"), ("D", "D"),
   ("F", "F")]

/-- `[choice[0] for choice in Grade.GRADE_CHOICES]` (utils.py line 201). -/
def valid_grades : List String := GRADE_CHOICES.map Prod.fst

/-- The slice of a stored `Grade` record the pipeline reads and writes.
Students and courses are identified by their unique `student_id` / `code`. -/
structure GradeRec where
  student_id : String
  course : String
  semester : String
  academic_year : String
  grade : String
  percentage : Option Rat
  created_by : Option String
deriving DecidableEq

/-- Does `g` match the lookup key of `Grade.objects.update_or_create`? -/
def gradeKeyMatches (g : GradeRec) (sid c sem yr : String) : Bool :=
  g.student_id == sid && g.course == c && g.semester == sem && g.academic_year == yr

/-- `Grade.objects.update_or_create(student=..., course=..., semester=...,
academic_year=..., defaults={grade, percentage, created_by})` over a grade
table: update the matching record if one exists, else append a new one.
Returns the new table and the `created` flag.  The `unique_together`
constraint of `Grade.Meta` (models.py line 148) guarantees at most one match,
so updating the first match is faithful. -/
def update_or_create (db : List GradeRec) (sid c sem yr gr : String)
    (pct : Option Rat) (cb : Option String) : List GradeRec × Bool :=
  match db with
  | [] => ([⟨sid, c, sem, yr, gr, pct, cb⟩], true)
  | g :: rest =>
    if gradeKeyMatches g sid c sem yr then
      ({ g with grade := gr, percentage := pct, created_by := cb } :: rest, false)
    else
      let r := update_or_create rest sid c sem yr gr pct cb
      (g :: r.1, r.2)

/-- An uploaded spreadsheet after `pd.read_excel`: header names and data
rows, each row's cells parallel to the header list. -/
structure Sheet where
  columns : List String
  rows : List (List Cell)
deriving DecidableEq

/-- `row[name]`: the cell of `row` under the column called `name` (first
occurrence; the modelled sheets have distinct normalized header names). -/
def getCell (ncols : List String) (row : List Cell) (name : String) : Cell :=
  match ncols.findIdx? (fun c => c == name) with
  | some i => row.getD i Cell.empty
  | none => Cell.empty

/-- The three column-name variables of `process_excel_grades`. -/
structure ColumnMap where
  student_id_col : Option String
  grade_col : Option String
  percentage_col : Option String
deriving DecidableEq

/-- One iteration of the column-mapping loop (utils.py lines 170-176). -/
def mapColumnsStep (m : ColumnMap) (col : String) : ColumnMap :=
  if strContains col "student" && strContains col "id" then
    { m with student_id_col := some col }
  else if strContains col "grade" then
    { m with grade_col := some col }
  else if strContains col "percentage" || strContains col "percent" then
    { m with percentage_col := some col }
  else m

/-- The column-mapping loop over the normalized header names. -/
def mapColumns (ncols : List String) : ColumnMap :=
  ncols.foldl mapColumnsStep ⟨none, none, none⟩

/-- The mutable state of the row loop: the grade table, `grades_created`,
and `errors`.  `updated_count` instruments how many upserts hit an existing
record; the source computes the `created` flag per row but keeps no such
counter and never returns one. -/
structure IngestState where
  db : List GradeRec
  grades_created : Nat
  updated_count : Nat
  errors : List String
deriving DecidableEq

/-- The body of `for index, row in df.iterrows()` (utils.py lines 184-224).
The order of operations follows the source: extract the student-id and grade
strings, parse the percentage (a `float` failure is the modelled exception,
caught by the row's `except` clause), then look up the student, then
validate the grade, then upsert. -/
def processRow (students : List String) (ncols : List String)
    (sidCol gCol : String) (pcol : Option String)
    (course semester academic_year : String) (created_by : Option String)
    (st : IngestState) (index : Nat) (row : List Cell) : IngestState :=
  let student_id := pyStrip (pyStr (getCell ncols row sidCol))
  let grade_value := pyUpper (pyStrip (pyStr (getCell ncols row gCol)))
  let pres : Except String (Option Rat) :=
    match pcol with
    | some pc =>
      let c := getCell ncols row pc
      if notna c then
        match pyFloat c with
        | some q => Except.ok (some q)
        | none =>
          Except.error ("could not convert string to float: \x27" ++ pyStr c ++ "\x27")
      else Except.ok none
    | none => Except.ok none
  match pres with
  | Except.error e =>
    { st with errors := st.errors ++
        ["Error processing row " ++ toString (index + 2) ++ ": " ++ e] }
  | Except.ok percentage =>
    if !(students.contains student_id) then
      { st with errors := st.errors ++
          ["Student with ID " ++ student_id ++ " not found (row " ++
            toString (index + 2) ++ ")"] }
    else if !(valid_grades.contains grade_value) then
      { st with errors := st.errors ++
          ["Invalid grade \x27" ++ grade_value ++ "\x27 for student " ++
            student_id ++ " (row " ++ toString (index + 2) ++ ")"] }
    else
      let r := update_or_create st.db student_id course semester academic_year
        grade_value percentage created_by
      { st with
        db := r.1,
        grades_created := if r.2 then st.grades_created + 1 else st.grades_created,
        updated_count := if r.2 then st.updated_count else st.updated_count + 1 }

/-- The row loop itself, threading the state and the 0-based `index`. -/
def processRows (students : List String) (ncols : List String)
    (sidCol gCol : String) (pcol : Option String)
    (course semester academic_year : String) (created_by : Option String)
    (st : IngestState) (index : Nat) : List (List Cell) → IngestState
  | [] => st
  | row :: rest =>
    processRows students ncols sidCol gCol pcol course semester academic_year
      created_by
      (processRow students ncols sidCol gCol pcol course semester academic_year
        created_by st index row)
      (index + 1) rest

/-- The value `process_excel_grades` returns: a 2-tuple on the
missing-required-column path (utils.py line 179), a 3-tuple on every other
path (lines 230 and 233). -/
inductive ProcResult where
  | pair (success : Bool) (message : String)
  | triple (success : Bool) (message : String) (errors : List String)
deriving DecidableEq

/-- The returned value together with the final grade table and the two
counters (the counters are observations of the run, not part of the
source's return value). -/
structure IngestOutcome where
  result : ProcResult
  db : List GradeRec
  grades_created : Nat
  updated_count : Nat
deriving DecidableEq

/-- `process_excel_grades` (utils.py lines 148-233), over an
already-parsed sheet; `students` is the set of existing `Student.student_id`
values and `db` the existing grade table.  The outer `except` arm for a
failing `pd.read_excel` is outside the modelled inputs. -/
def process_excel_grades (students : List String) (db : List GradeRec)
    (sheet : Sheet) (course semester academic_year : String)
    (created_by : Option String) : IngestOutcome :=
  let ncols := sheet.columns.map normalizeHeader
  let cmap := mapColumns ncols
  match cmap.student_id_col, cmap.grade_col with
  | some sidCol, some gCol =>
    let st := processRows students ncols sidCol gCol cmap.percentage_col
      course semester academic_year created_by ⟨db, 0, 0, []⟩ 0 sheet.rows
    let message :=
      "Successfully created/updated " ++ toString st.grades_created ++
        " grade(s)." ++
        (if st.errors.isEmpty then ""
         else " " ++ toString st.errors.length ++ " error(s) occurred.")
    ⟨ProcResult.triple true message st.errors, st.db, st.grades_created,
      st.updated_count⟩
  | _, _ =>
    ⟨ProcResult.pair false
      "Excel file must contain \x27Student ID\x27 and \x27Grade\x27 columns",
      db, 0, 0⟩

/-- The caller's unpacking `success, message, errors = process_excel_grades(...)`
(views.py lines 281-283): `none` models the `ValueError` a 2-tuple raises. -/
def unpackThree : ProcResult → Option (Bool × String × List String)
  | ProcResult.triple s m e => some (s, m, e)
  | ProcResult.pair _ _ => none

/-! ## Report export (`convert_grades_to_pdf`, views.py lines 305-341) -/

/-- The student identity fields the export joins in:
`student_id`, `user.get_full_name()`, `user.username`. -/
structure StudentRec where
  student_id : String
  full_name : String
  username : String
deriving DecidableEq

/-- One `Grade` record as iterated by
`Grade.objects.filter(course=course).select_related("student")`. -/
structure GradeJoin where
  student : StudentRec
  grade : String
  percentage : Option Rat
  semester : String
  academic_year : String
deriving DecidableEq

/-- One data row of the export (views.py lines 324-331), cells rendered as
the strings the table displays.  Python `x or ""` on the name picks the
username when `get_full_name()` is the empty (falsy) string; on the
percentage it yields `""` when the value is missing or the falsy 0. -/
def gradeRow (g : GradeJoin) : List String :=
  [g.student.student_id,
   if g.student.full_name == "" then g.student.username else g.student.full_name,
   g.grade,
   (match g.percentage with
    | some q => if q == 0 then "" else toString q
    | none => ""),
   g.semester,
   g.academic_year]

/-- The fixed header row of the export. -/
def reportHeaders : List String :=
  ["Student ID", "Student Name", "Grade", "Percentage", "Semester",
   "Academic Year"]

/-- `convert_grades_to_pdf` restricted to its data contract: given the
course's grade records (in iteration order), refuse an empty set with the
view's error message (views.py lines 316-318), otherwise produce the header
row and one data row per grade. -/
def convert_grades_to_pdf (grades : List GradeJoin) :
    Except String (List String × List (List String)) :=
  if grades.isEmpty then Except.error "No grades found for this course."
  else Except.ok (reportHeaders, grades.map gradeRow)

/-! ## Observations used by the theorems -/

/-- Number of grade records matching an upsert key. -/
def countKey (db : List GradeRec) (sid c sem yr : String) : Nat :=
  (db.filter (fun g => gradeKeyMatches g sid c sem yr)).length

/-- The record a key lookup returns (first match). -/
def findKey (db : List GradeRec) (sid c sem yr : String) : Option GradeRec :=
  db.find? (fun g => gradeKeyMatches g sid c sem yr)

/-! ## Concrete sample inputs -/

/-- A locked course. -/
def lockedCourse : Course := ⟨"CS101", true⟩

/-- An unauthenticated request user. -/
def anonUser : PyUser := ⟨false, none, none, none⟩

/-- A teacher assigned to CS101. -/
def teacherUser : PyUser := ⟨true, some ⟨["CS101"]⟩, none, none⟩

/-- A student user. -/
def studentUser : PyUser := ⟨true, none, some (), none⟩

/-- An academic-board user. -/
def boardUser : PyUser := ⟨true, none, none, some ()⟩

/-- The spec's two-row example: STU001 exists, STU999 does not. -/
def c3sheet : Sheet :=
  ⟨["Student ID", "Grade"],
   [[Cell.str "STU001", Cell.str "A"], [Cell.str "STU999", Cell.str "B"]]⟩

/-- A three-row sheet whose rows 3 and 4 each fail differently, to observe
the ordering and numbering of row errors. -/
def c3ordSheet : Sheet :=
  ⟨["Student ID", "Grade"],
   [[Cell.str "STU001", Cell.str "A"], [Cell.str "STU999", Cell.str "B"],
    [Cell.str "STU001", Cell.str "Z"]]⟩

/-- A pre-existing grade table holding one record for STU001. -/
def c3db : List GradeRec := [⟨"STU001", "CS101", "Fall", "2024", "B", none, none⟩]

/-- A run whose single row updates the existing record (one update). -/
def c3runA : IngestOutcome :=
  process_excel_grades ["STU001"] c3db
    ⟨["Student ID", "Grade"], [[Cell.str "STU001", Cell.str "A"]]⟩
    "CS101" "Fall" "2024" none

/-- A run over an empty sheet (zero updates). -/
def c3runB : IngestOutcome :=
  process_excel_grades ["STU001"] c3db
    ⟨["Student ID", "Grade"], []⟩
    "CS101" "Fall" "2024" none

/-- A row whose student is absent and whose percentage cell is malformed. -/
def c5sheet : Sheet :=
  ⟨["Student ID", "Grade", "Percentage"],
   [[Cell.str "STU999", Cell.str "A", Cell.str "abc"]]⟩

/-- The error the pipeline records for the row of `c5sheet`. -/
def c5floatError : String :=
  "Error processing row 2: could not convert string to float: \x27abc\x27"

/-- A row whose student is absent, whose grade is invalid, and whose
percentage cell is well-formed. -/
def c5bsheet : Sheet :=
  ⟨["Student ID", "Grade", "Percentage"],
   [[Cell.str "STU999", Cell.str "Z", Cell.num 50]]⟩

/-- Three rows: empty percentage cell, malformed percentage cell, numeric
percentage cell. -/
def c6sheet : Sheet :=
  ⟨["Student ID", "Grade", "Percentage"],
   [[Cell.str "STU001", Cell.str "A", Cell.empty],
    [Cell.str "STU002", Cell.str "B", Cell.str "abc"],
    [Cell.str "STU003", Cell.str "C", Cell.num 75]]⟩

/-- A sheet with no column containing "grade". -/
def c2sheet : Sheet :=
  ⟨["Student ID", "Score"], [[Cell.str "STU001", Cell.str "A"]]⟩

/-- Two rows with the same student ID and different grades. -/
def c4sheet : Sheet :=
  ⟨["Student ID", "Grade"],
   [[Cell.str "STU001", Cell.str "A"], [Cell.str "STU001", Cell.str "B+"]]⟩

/-- A grade joined with a student who has no display name set. -/
def sampleGrade : GradeJoin := ⟨⟨"STU001", "", "stu001"⟩, "A", some 90, "Fall", "2024"⟩

/-! ## Helper lemmas -/

/-- Applying the upsert defaults to a record does not change which key it
matches. -/
theorem gradeKeyMatches_set (g : GradeRec) (sid c sem yr gr : String)
    (pct : Option Rat) (cb : Option String) :
    gradeKeyMatches { g with grade := gr, percentage := pct, created_by := cb }
      sid c sem yr = gradeKeyMatches g sid c sem yr := rfl

/-- An upsert leaves exactly one record under its key when none existed and
otherwise preserves the number of matching records. -/
theorem countKey_update_or_create (db : List GradeRec) (sid c sem yr gr : String)
    (pct : Option Rat) (cb : Option String) :
    countKey (update_or_create db sid c sem yr gr pct cb).1 sid c sem yr =
      if countKey db sid c sem yr = 0 then 1 else countKey db sid c sem yr := by
  induction db with
  | nil => simp [update_or_create, countKey, gradeKeyMatches]
  | cons g rest ih =>
    by_cases hm : gradeKeyMatches g sid c sem yr = true
    · simp [update_or_create, hm, countKey, List.filter_cons, gradeKeyMatches_set]
    · rw [Bool.not_eq_true] at hm
      simp [update_or_create, hm, countKey, List.filter_cons] at ih ⊢
      exact ih

/-- After an upsert, looking the key up finds a record holding the upsert's
`grade`, `percentage` and `created_by` values. -/
theorem findKey_update_or_create (db : List GradeRec) (sid c sem yr gr : String)
    (pct : Option Rat) (cb : Option String) :
    ∃ g : GradeRec,
      findKey (update_or_create db sid c sem yr gr pct cb).1 sid c sem yr = some g ∧
        g.grade = gr ∧ g.percentage = pct ∧ g.created_by = cb := by
  induction db with
  | nil =>
    refine ⟨⟨sid, c, sem, yr, gr, pct, cb⟩, ?_, rfl, rfl, rfl⟩
    simp [update_or_create, findKey, gradeKeyMatches]
  | cons g rest ih =>
    by_cases hm : gradeKeyMatches g sid c sem yr = true
    · refine ⟨{ g with grade := gr, percentage := pct, created_by := cb }, ?_, rfl, rfl, rfl⟩
      simp [update_or_create, hm, findKey, List.find?_cons, gradeKeyMatches_set]
    · rw [Bool.not_eq_true] at hm
      obtain ⟨g2, hfind, h1, h2, h3⟩ := ih
      refine ⟨g2, ?_, h1, h2, h3⟩
      simp [update_or_create, hm, findKey, List.find?_cons] at hfind ⊢
      exact hfind

/-- A row whose percentage cell holds an unparseable string only appends the
generic row-processing error: the grade table and the created counter are
untouched, and neither the student lookup nor the grade validation runs. -/
theorem processRow_float_fail (students ncols : List String)
    (sidCol gCol pc : String) (course semester academic_year : String)
    (created_by : Option String) (st : IngestState) (index : Nat)
    (row : List Cell) (s : String)
    (hc : getCell ncols row pc = Cell.str s)
    (hp : parseUnsigned (trimList s.toList) = none) :
    processRow students ncols sidCol gCol (some pc) course semester
      academic_year created_by st index row =
      { st with errors := st.errors ++
          ["Error processing row " ++ toString (index + 2) ++ ": " ++
            ("could not convert string to float: \x27" ++ s ++ "\x27")] } := by
  unfold processRow
  simp only [String.toList] at hp
  simp [hc, notna, pyFloat, hp, pyStr]

/-- A row whose percentage cell is empty behaves exactly as if the sheet had
no percentage column: the empty cell is not an error. -/
theorem processRow_empty_pct (students ncols : List String)
    (sidCol gCol pc : String) (course semester academic_year : String)
    (created_by : Option String) (st : IngestState) (index : Nat)
    (row : List Cell)
    (hc : getCell ncols row pc = Cell.empty) :
    processRow students ncols sidCol gCol (some pc) course semester
      academic_year created_by st index row =
      processRow students ncols sidCol gCol none course semester
        academic_year created_by st index row := by
  unfold processRow
  simp [hc, notna]

/-! ## Claim theorems -/

/-- Claim C1: for every principal and every course with `is_locked = true`,
each of `check_course_edit_permission`, `check_learning_outcome_permission`
and `check_grade_permission` returns false, regardless of the principal's
role. -/
theorem claim_C1 (user : PyUser) (course : Course) (h : course.is_locked = true) :
    check_course_edit_permission user course = false ∧
    check_learning_outcome_permission user course = false ∧
    check_grade_permission user course = false := by
  have hlo : check_learning_outcome_permission user course = false := by
    unfold check_learning_outcome_permission
    cases htp : user.teacher_profile <;> simp [h, htp]
  refine ⟨?_, hlo, hlo⟩
  unfold check_course_edit_permission
  simp [h]

/-- Witness for C1: a teacher assigned to the locked course is still denied
all three mutations. -/
theorem claim_C1_witness :
    check_course_edit_permission teacherUser lockedCourse = false ∧
    check_learning_outcome_permission teacherUser lockedCourse = false ∧
    check_grade_permission teacherUser lockedCourse = false :=
  claim_C1 teacherUser lockedCourse rfl

/-- Claim C2: when either required column is missing from the sheet,
`process_excel_grades` fails the whole operation with the descriptive
structural-error message, and the grade table is unchanged (no rows
processed, zero `Grade` records created). -/
theorem claim_C2 (students : List String) (db : List GradeRec) (sheet : Sheet)
    (course semester academic_year : String) (created_by : Option String)
    (h : (mapColumns (sheet.columns.map normalizeHeader)).student_id_col = none ∨
      (mapColumns (sheet.columns.map normalizeHeader)).grade_col = none) :
    (process_excel_grades students db sheet course semester academic_year
        created_by).result =
      ProcResult.pair false
        "Excel file must contain \x27Student ID\x27 and \x27Grade\x27 columns" ∧
    (process_excel_grades students db sheet course semester academic_year
        created_by).db = db := by
  unfold process_excel_grades
  cases hs : (mapColumns (sheet.columns.map normalizeHeader)).student_id_col <;>
    cases hg : (mapColumns (sheet.columns.map normalizeHeader)).grade_col <;>
    simp_all

/-- Witness for C2: a sheet whose columns are "Student ID" and "Score" has
no grade column; ingesting it returns the structural error and creates no
records. -/
theorem claim_C2_witness :
    ((mapColumns (c2sheet.columns.map normalizeHeader)).student_id_col = none ∨
      (mapColumns (c2sheet.columns.map normalizeHeader)).grade_col = none) ∧
    (process_excel_grades ["STU001"] [] c2sheet "CS101" "" "" none).result =
      ProcResult.pair false
        "Excel file must contain \x27Student ID\x27 and \x27Grade\x27 columns" ∧
    (process_excel_grades ["STU001"] [] c2sheet "CS101" "" "" none).db = [] :=
  ⟨Or.inr (by decide),
   (claim_C2 ["STU001"] [] c2sheet "CS101" "" "" none (Or.inr (by decide))).1,
   (claim_C2 ["STU001"] [] c2sheet "CS101" "" "" none (Or.inr (by decide))).2⟩

/-- Counterexample to C3 as stated: the returned result cannot contain the
total count of updated records, because a run that updates one existing
record and a run that updates none return identical values. -/
theorem claim_C3_counterexample :
    c3runA.updated_count = 1 ∧ c3runB.updated_count = 0 ∧
    c3runA.result = c3runB.result := by decide

/-- Claim C3 (amended): the result aggregates the count of created records
(updates are not counted separately) plus the ordered list of row errors,
each tagged with the 1-based original spreadsheet row number accounting for
the header offset; for the rows STU001/A and STU999/B with STU999 absent,
created = 1 with exactly one row error citing row 3 and "not found". -/
theorem claim_C3 :
    (process_excel_grades ["STU001"] [] c3sheet "CS101" "" "" none).grades_created = 1 ∧
    (process_excel_grades ["STU001"] [] c3sheet "CS101" "" "" none).result =
      ProcResult.triple true
        "Successfully created/updated 1 grade(s). 1 error(s) occurred."
        ["Student with ID STU999 not found (row 3)"] ∧
    strContains "Student with ID STU999 not found (row 3)" "not found" = true ∧
    (process_excel_grades ["STU001"] [] c3ordSheet "CS101" "" "" none).result =
      ProcResult.triple true
        "Successfully created/updated 1 grade(s). 2 error(s) occurred."
        ["Student with ID STU999 not found (row 3)",
         "Invalid grade \x27Z\x27 for student STU001 (row 4)"] := by decide

/-- Claim C4: upserting the same (student, course, semester, academic_year)
key twice against a table holding at most one record under that key leaves
exactly one record, holding the second upsert's values; in particular, when
one upload repeats a student ID, the later row wins with no duplicate
record. -/
theorem claim_C4 (db : List GradeRec) (sid c sem yr g1 g2 : String)
    (p1 p2 : Option Rat) (cb1 cb2 : Option String)
    (h : countKey db sid c sem yr ≤ 1) :
    countKey (update_or_create (update_or_create db sid c sem yr g1 p1 cb1).1
        sid c sem yr g2 p2 cb2).1 sid c sem yr = 1 ∧
    (∃ g : GradeRec,
      findKey (update_or_create (update_or_create db sid c sem yr g1 p1 cb1).1
          sid c sem yr g2 p2 cb2).1 sid c sem yr = some g ∧
        g.grade = g2 ∧ g.percentage = p2 ∧ g.created_by = cb2) ∧
    (process_excel_grades ["STU001"] [] c4sheet "CS101" "" "" none).db =
      [⟨"STU001", "CS101", "", "", "B+", none, none⟩] ∧
    (process_excel_grades ["STU001"] [] c4sheet "CS101" "" "" none).grades_created = 1 := by
  refine ⟨?_, findKey_update_or_create _ _ _ _ _ _ _ _, by decide, by decide⟩
  rw [countKey_update_or_create, countKey_update_or_create]
  split_ifs <;> omega

/-- Witness for C4: two upserts of the same key against the empty table
leave exactly one record. -/
theorem claim_C4_witness :
    countKey (update_or_create (update_or_create [] "STU001" "CS101" "" "" "A" none none).1
        "STU001" "CS101" "" "" "B+" none none).1 "STU001" "CS101" "" "" = 1 :=
  (claim_C4 [] "STU001" "CS101" "" "" "A" "B+" none none none none (by decide)).1

/-- Counterexample to C5 as stated: for a row whose student does not exist
and whose percentage cell is malformed, the recorded row error is the
generic float-conversion error, not a "student not found" error — the code
parses the percentage before looking the student up. -/
theorem claim_C5_counterexample :
    (process_excel_grades ["STU001"] [] c5sheet "CS101" "" "" none).result =
      ProcResult.triple true
        "Successfully created/updated 0 grade(s). 1 error(s) occurred."
        [c5floatError] ∧
    strContains c5floatError "not found" = false := by decide

/-- Claim C5 (amended): within each data row the code extracts the student
and grade cells, then parses the percentage cell (a parse failure aborts
the row with a generic processing error), then looks up the student, then
validates the grade; hence a row with an absent student and a malformed
percentage records the generic error, while a row with an absent student,
an invalid grade and a well-formed percentage records "student not
found". -/
theorem claim_C5 :
    (process_excel_grades ["STU001"] [] c5sheet "CS101" "" "" none).result =
      ProcResult.triple true
        "Successfully created/updated 0 grade(s). 1 error(s) occurred."
        [c5floatError] ∧
    (process_excel_grades ["STU001"] [] c5bsheet "CS101" "" "" none).result =
      ProcResult.triple true
        "Successfully created/updated 0 grade(s). 1 error(s) occurred."
        ["Student with ID STU999 not found (row 2)"] := by decide

/-- Claim C6: an empty percentage cell is not an error (the row behaves as
if no percentage column existed), a malformed percentage cell yields a row
error for that row only with no grade record written for it, and the other
rows of the same batch are still processed (shown on a three-row batch:
rows 2 and 4 are upserted, row 3 is the only error). -/
theorem claim_C6 :
    (∀ (students ncols : List String) (sidCol gCol pc : String)
      (course semester academic_year : String) (created_by : Option String)
      (st : IngestState) (index : Nat) (row : List Cell) (s : String),
      getCell ncols row pc = Cell.str s →
      parseUnsigned (trimList s.toList) = none →
      processRow students ncols sidCol gCol (some pc) course semester
        academic_year created_by st index row =
        { st with errors := st.errors ++
            ["Error processing row " ++ toString (index + 2) ++ ": " ++
              ("could not convert string to float: \x27" ++ s ++ "\x27")] }) ∧
    (∀ (students ncols : List String) (sidCol gCol pc : String)
      (course semester academic_year : String) (created_by : Option String)
      (st : IngestState) (index : Nat) (row : List Cell),
      getCell ncols row pc = Cell.empty →
      processRow students ncols sidCol gCol (some pc) course semester
        academic_year created_by st index row =
        processRow students ncols sidCol gCol none course semester
          academic_year created_by st index row) ∧
    (process_excel_grades ["STU001", "STU002", "STU003"] [] c6sheet "CS101"
        "F" "25" none).db =
      [⟨"STU001", "CS101", "F", "25", "A", none, none⟩,
       ⟨"STU003", "CS101", "F", "25", "C", some 75, none⟩] ∧
    (process_excel_grades ["STU001", "STU002", "STU003"] [] c6sheet "CS101"
        "F" "25" none).result =
      ProcResult.triple true
        "Successfully created/updated 2 grade(s). 1 error(s) occurred."
        ["Error processing row 3: could not convert string to float: \x27abc\x27"] :=
  ⟨fun students ncols sidCol gCol pc course semester academic_year created_by
      st index row s hc hp =>
    processRow_float_fail students ncols sidCol gCol pc course semester
      academic_year created_by st index row s hc hp,
   fun students ncols sidCol gCol pc course semester academic_year created_by
      st index row hc =>
    processRow_empty_pct students ncols sidCol gCol pc course semester
      academic_year created_by st index row hc,
   by decide, by decide⟩

/-- Witness for C6: a row whose percentage cell is "abc" produces only the
generic row error, leaving the table empty. -/
theorem claim_C6_witness :
    processRow ["STU001"] ["student id", "grade", "percentage"] "student id"
      "grade" (some "percentage") "CS101" "" "" none ⟨[], 0, 0, []⟩ 0
      [Cell.str "STU001", Cell.str "A", Cell.str "abc"] =
      ⟨[], 0, 0,
        ["Error processing row 2: could not convert string to float: \x27abc\x27"]⟩ :=
  claim_C6.1 ["STU001"] ["student id", "grade", "percentage"] "student id"
    "grade" "percentage" "CS101" "" "" none ⟨[], 0, 0, []⟩ 0
    [Cell.str "STU001", Cell.str "A", Cell.str "abc"] "abc" rfl rfl

/-- Claim C7: `get_user_role` returns exactly one of the four role values;
it checks teacher, then student, then academic-board profile and returns
the first match, and every unauthenticated principal resolves to none. -/
theorem claim_C7 (user : PyUser) :
    (get_user_role user = none ∨ get_user_role user = some Role.teacher ∨
      get_user_role user = some Role.student ∨
      get_user_role user = some Role.academic_board) ∧
    (user.is_authenticated = false → get_user_role user = none) ∧
    (user.is_authenticated = true → user.teacher_profile.isSome = true →
      get_user_role user = some Role.teacher) ∧
    (user.is_authenticated = true → user.teacher_profile = none →
      user.student_profile.isSome = true →
      get_user_role user = some Role.student) ∧
    (user.is_authenticated = true → user.teacher_profile = none →
      user.student_profile = none → user.academic_board_profile.isSome = true →
      get_user_role user = some Role.academic_board) := by
  rcases user with ⟨auth, tp, sp, bp⟩
  cases auth <;> cases tp <;> cases sp <;> cases bp <;> simp [get_user_role]

/-- Witness for C7: each of the four sample users resolves to its role. -/
theorem claim_C7_witness :
    get_user_role anonUser = none ∧
    get_user_role teacherUser = some Role.teacher ∧
    get_user_role studentUser = some Role.student ∧
    get_user_role boardUser = some Role.academic_board :=
  ⟨(claim_C7 anonUser).2.1 rfl,
   (claim_C7 teacherUser).2.2.1 rfl rfl,
   (claim_C7 studentUser).2.2.2.1 rfl rfl rfl,
   (claim_C7 boardUser).2.2.2.2 rfl rfl rfl rfl⟩

/-- Claim C8: the export refuses an empty grade set with the empty-dataset
error; on N grades it produces exactly N data rows in grade-iteration
order, each with the fixed 6-column layout Student ID, Student Name, Grade,
Percentage, Semester, Academic Year, where the name falls back to the
login handle when no display name is set. -/
theorem claim_C8 (grades : List GradeJoin) :
    (grades = [] →
      convert_grades_to_pdf grades =
        Except.error "No grades found for this course.") ∧
    (grades ≠ [] →
      convert_grades_to_pdf grades =
        Except.ok (reportHeaders, grades.map gradeRow) ∧
      (grades.map gradeRow).length = grades.length) ∧
    (∀ g : GradeJoin, (gradeRow g).length = 6 ∧
      (gradeRow g).get? 0 = some g.student.student_id ∧
      (gradeRow g).get? 2 = some g.grade ∧
      (gradeRow g).get? 4 = some g.semester ∧
      (gradeRow g).get? 5 = some g.academic_year) ∧
    (∀ g : GradeJoin, g.student.full_name = "" →
      (gradeRow g).get? 1 = some g.student.username) ∧
    (∀ g : GradeJoin, g.student.full_name ≠ "" →
      (gradeRow g).get? 1 = some g.student.full_name) ∧
    reportHeaders =
      ["Student ID", "Student Name", "Grade", "Percentage", "Semester",
       "Academic Year"] := by
  refine ⟨fun h => by simp [convert_grades_to_pdf, h],
    fun h => ⟨by simp [convert_grades_to_pdf, h], by simp⟩,
    fun g => ⟨rfl, rfl, rfl, rfl, rfl⟩,
    fun g h => by simp [gradeRow, h],
    fun g h => by simp [gradeRow, h],
    rfl⟩

/-- Witness for C8: the empty set is refused, and a one-grade course whose
student has no display name exports one row naming the login handle. -/
theorem claim_C8_witness :
    convert_grades_to_pdf [] = Except.error "No grades found for this course." ∧
    convert_grades_to_pdf [sampleGrade] =
      Except.ok (reportHeaders, [sampleGrade].map gradeRow) ∧
    (gradeRow sampleGrade).get? 1 = some "stu001" :=
  ⟨(claim_C8 []).1 rfl,
   ((claim_C8 [sampleGrade]).2.1 (List.cons_ne_nil _ _)).1,
   (claim_C8 [sampleGrade]).2.2.2.1 sampleGrade rfl⟩

/-- Claim C9: `process_excel_grades` returns a 2-tuple exactly on the
missing-required-column path and a 3-tuple on every other path over the
modelled inputs; the caller's three-way unpacking therefore fails on
exactly that path, losing the descriptive structural-error message. -/
theorem claim_C9 (students : List String) (db : List GradeRec) (sheet : Sheet)
    (course semester academic_year : String) (created_by : Option String) :
    (((mapColumns (sheet.columns.map normalizeHeader)).student_id_col = none ∨
        (mapColumns (sheet.columns.map normalizeHeader)).grade_col = none) →
      (process_excel_grades students db sheet course semester academic_year
          created_by).result =
        ProcResult.pair false
          "Excel file must contain \x27Student ID\x27 and \x27Grade\x27 columns" ∧
      unpackThree (process_excel_grades students db sheet course semester
        academic_year created_by).result = none) ∧
    (∀ a b, (mapColumns (sheet.columns.map normalizeHeader)).student_id_col = some a →
      (mapColumns (sheet.columns.map normalizeHeader)).grade_col = some b →
      ∃ m e, (process_excel_grades students db sheet course semester academic_year
          created_by).result = ProcResult.triple true m e ∧
        unpackThree (process_excel_grades students db sheet course semester
          academic_year created_by).result = some (true, m, e)) := by
  constructor
  · intro h
    unfold process_excel_grades
    cases hs : (mapColumns (sheet.columns.map normalizeHeader)).student_id_col <;>
      cases hg : (mapColumns (sheet.columns.map normalizeHeader)).grade_col <;>
      simp_all [unpackThree]
  · intro a b hs hg
    unfold process_excel_grades
    simp only [hs, hg, unpackThree]
    exact ⟨_, _, rfl, rfl⟩

/-- Witness for C9: unpacking fails on the missing-grade-column sheet and
succeeds on a well-formed sheet. -/
theorem claim_C9_witness :
    unpackThree (process_excel_grades ["STU001"] [] c2sheet "CS101" "" "" none).result =
      none ∧
    (∃ m e, (process_excel_grades ["STU001"] [] c3sheet "CS101" "" "" none).result =
        ProcResult.triple true m e ∧
      unpackThree (process_excel_grades ["STU001"] [] c3sheet "CS101" "" ""
        none).result = some (true, m, e)) :=
  ⟨((claim_C9 ["STU001"] [] c2sheet "CS101" "" "" none).1 (Or.inr (by decide))).2,
   (claim_C9 ["STU001"] [] c3sheet "CS101" "" "" none).2 "student id" "grade"
     (by decide) (by decide)⟩

/-- Claim C10: during header mapping, each loop iteration overwrites the
previous assignment without breaking, so when several normalized column
names match the same category the last matching column in header order is
selected (stated for all three categories, with the elif order making the
student-id branch take precedence within one column). -/
theorem claim_C10 (ncols : List String) (c : String) :
    ((strContains c "student" && strContains c "id") = true →
      (mapColumns (ncols ++ [c])).student_id_col = some c) ∧
    ((strContains c "student" && strContains c "id") = false →
      strContains c "grade" = true →
      (mapColumns (ncols ++ [c])).grade_col = some c) ∧
    ((strContains c "student" && strContains c "id") = false →
      strContains c "grade" = false →
      (strContains c "percentage" || strContains c "percent") = true →
      (mapColumns (ncols ++ [c])).percentage_col = some c) := by
  have hstep : mapColumns (ncols ++ [c]) = mapColumnsStep (mapColumns ncols) c := by
    simp [mapColumns, List.foldl_append]
  refine ⟨fun h1 => ?_, fun h1 h2 => ?_, fun h1 h2 h3 => ?_⟩ <;> rw [hstep]
  · simp [mapColumnsStep, h1]
  · simp [mapColumnsStep, h1, h2]
  · simp [mapColumnsStep, h1, h2, h3]

/-- Witness for C10: with headers "student id", "grade", "final grade", the
grade column selected is the later "final grade". -/
theorem claim_C10_witness :
    (mapColumns (["student id", "grade"] ++ ["final grade"])).grade_col =
      some "final grade" :=
  (claim_C10 ["student id", "grade"] "final grade").2.1 (by decide) (by decide)

end EduPace
